import Mathlib

/-!
Verification of the DJ mixing console / voice unit core (TypeScript, `src/unnamed/part_000`).

The development shallowly embeds the three classes of the source file:

* `Deck.detectBPM` (lines 395-447): offline tempo estimation over a decoded
  buffer.  The `Float32Array` channel data is embedded as an index function
  `data : ℕ → ℚ` together with its length, and the outcome values are exact
  rationals (the source computes with IEEE doubles, but every quantity reached
  in the claims below is an exact dyadic/decimal value, so ℚ is faithful there).
* `AudioEngine.setMasterBpm` / `Deck.syncToMaster` / `Deck.toggleSync` /
  `Deck.loadTrack` (tempo-sync state machine).
* `VoiceEngine` (record/playback flags, preset bank, FX parameter state).

Effectful collaborators (Tone.js nodes, microphone, decoding) are out of scope
per the spec; their success/failure outcomes enter the embedding as explicit
boolean parameters of the operations that await them.
-/

namespace Deck

/-- The peak-scan loop of `Deck.detectBPM` (source lines 404-410):
`for (let i = 0; i < channelData.length; i += step)` with `step = 4`;
when `channelData[i] > 0.6` the index is pushed and the scan additionally
advances by `Math.floor(sampleRate / 4)`.  The loop is expressed with a fuel
argument; one unit of fuel is consumed per loop iteration, and every iteration
advances `i` by at least 4, so `len` units of fuel (the value used by
`findPeaks`) are strictly more than the at most `len / 4 + 1` iterations the
source loop can perform: the fuel never runs out while `i < len`. -/
def findPeaksAux (data : ℕ → ℚ) (len sr : ℕ) : ℕ → ℕ → List ℕ
  | 0, _ => []
  | fuel + 1, i =>
    if i < len then
      if 3 / 5 < data i then
        i :: findPeaksAux data len sr fuel (i + sr / 4 + 4)
      else
        findPeaksAux data len sr fuel (i + 4)
    else []

/-- All peak indices recorded by the scan loop of `Deck.detectBPM`. -/
def findPeaks (data : ℕ → ℚ) (len sr : ℕ) : List ℕ :=
  findPeaksAux data len sr len 0

/-- Consecutive peak-to-peak differences, `peaks[i] - peaks[i - 1]`
(source lines 415-418).  The scan produces strictly increasing indices, so
truncated subtraction on ℕ agrees with the source. -/
def intervalsOf : List ℕ → List ℕ
  | a :: b :: rest => (b - a) :: intervalsOf (b :: rest)
  | _ => []

/-- `Math.round(interval / 100) * 100` (source line 424).  `Math.round` rounds
half-up, which is Mathlib's `round`; the argument is a non-negative rational so
`Int.toNat` loses nothing. -/
def quantize (interval : ℕ) : ℕ :=
  (round ((interval : ℚ) / 100)).toNat * 100

/-- `groups[rounded] = (groups[rounded] || 0) + 1` on a JS object, embedded as
an association list that keeps the keys in insertion order (the order the
object records them). -/
def bump (k : ℕ) : List (ℕ × ℕ) → List (ℕ × ℕ)
  | [] => [(k, 1)]
  | (a, c) :: rest => if a = k then (a, c + 1) :: rest else (a, c) :: bump k rest

/-- The interval histogram of source lines 421-426, keys in insertion order. -/
def buildGroups (intervals : List ℕ) : List (ℕ × ℕ) :=
  intervals.foldl (fun g interval => bump (quantize interval) g) []

/-- `groups[k]` (0 when absent). -/
def countOf : List (ℕ × ℕ) → ℕ → ℕ
  | [], _ => 0
  | (a, c) :: rest, k => if a = k then c else countOf rest k

/-- The key sequence visited by `for (const interval in groups)`
(source line 431).  The histogram keys are canonical numeric strings
(array indices), and ECMAScript (ES2020 §9.1.11.1, OrdinaryOwnPropertyKeys)
visits such keys in ascending numeric order, NOT in insertion order. -/
def forInKeys (g : List (ℕ × ℕ)) : List ℕ :=
  List.insertionSort (fun a b => a ≤ b) (g.map Prod.fst)

/-- The maximum-count scan of source lines 429-436: running state is
`(maxCount, bestInterval)`, updated whenever `groups[interval] > maxCount`. -/
def selectLoop (g : List (ℕ × ℕ)) : List ℕ → ℕ × ℕ → ℕ × ℕ
  | [], acc => acc
  | k :: rest, acc =>
    if acc.1 < countOf g k then selectLoop g rest (countOf g k, k)
    else selectLoop g rest acc

/-- `bestInterval` as computed by source lines 429-436 (keys visited in the
JS `for...in` order). -/
def bestInterval (g : List (ℕ × ℕ)) : ℕ :=
  (selectLoop g (forInKeys g) (0, 0)).2

/-- `Deck.detectBPM` (source lines 395-447), as a function of the first
channel's samples, their count, and the sample rate:  peak-pick, histogram the
intervals, convert the winning interval with `bpm = 60 * sr / (best * 4)`,
then octave-correct (the `bpm < 70` and `bpm > 180` branches return their
scaled value directly; only the in-range branch applies `Math.round`). -/
def detectBPM (data : ℕ → ℚ) (len sr : ℕ) : ℚ :=
  let peaks := findPeaks data len sr
  if peaks.length < 10 then 0
  else
    let best := bestInterval (buildGroups (intervalsOf peaks))
    if best = 0 then 0
    else
      let bpm : ℚ := 60 * sr / (best * 4)
      if bpm < 70 then bpm * 2
      else if 180 < bpm then bpm / 2
      else ((round bpm : ℤ) : ℚ)

/-- The tempo value of `Deck.detectBPM` before its octave-correction step
(the local `bpm` of source line 440; 0 on the degenerate early returns). -/
def rawBpm (data : ℕ → ℚ) (len sr : ℕ) : ℚ :=
  let peaks := findPeaks data len sr
  if peaks.length < 10 then 0
  else
    let best := bestInterval (buildGroups (intervalsOf peaks))
    if best = 0 then 0
    else 60 * sr / (best * 4)

/-- Modelled from the spec: the spec's tie-break rule selects the
first-encountered histogram bucket in the order the buckets were produced
from the interval sequence (insertion order).  This definition follows the
spec's words; the source's `for...in` visits the numeric keys in ascending
order instead (see `forInKeys`). -/
def bestIntervalInsertion (g : List (ℕ × ℕ)) : ℕ :=
  (selectLoop g (g.map Prod.fst) (0, 0)).2

/-- Modelled from the spec: `detectBPM` as it would behave with the spec's
insertion-order tie-break in place of the source's ascending key order. -/
def detectBPMInsertion (data : ℕ → ℚ) (len sr : ℕ) : ℚ :=
  let peaks := findPeaks data len sr
  if peaks.length < 10 then 0
  else
    let best := bestIntervalInsertion (buildGroups (intervalsOf peaks))
    if best = 0 then 0
    else
      let bpm : ℚ := 60 * sr / (best * 4)
      if bpm < 70 then bpm * 2
      else if 180 < bpm then bpm / 2
      else ((round bpm : ℤ) : ℚ)

end Deck

/-- Per-deck mutable state of class `Deck` (source lines 287-290):
`isPlaying`, detected `bpm` (0 = unknown), `playbackRate`, `isSynced`.
The Tone.js player/EQ/filter nodes are external collaborators and carry no
state the claims mention. -/
structure DeckState where
  isPlaying : Bool
  bpm : ℚ
  playbackRate : ℚ
  isSynced : Bool
deriving DecidableEq

/-- The engine-level state of class `AudioEngine` (source lines 11-22):
`masterBpm` (default 120) plus the two decks.  Crossfader and master volume
are ramped writes to external nodes with no feedback into the claims. -/
structure AudioEngineState where
  masterBpm : ℚ
  deckA : DeckState
  deckB : DeckState
deriving DecidableEq

namespace Deck

/-- `Deck.setRate` (source lines 364-367): stores the rate in the field and
mirrors it to the player node (external). -/
def setRate (d : DeckState) (rate : ℚ) : DeckState :=
  { d with playbackRate := rate }

/-- `Deck.syncToMaster` (source lines 353-358), as a function of the engine's
`masterBpm` the method reads. -/
def syncToMaster (masterBpm : ℚ) (d : DeckState) : DeckState :=
  if 0 < d.bpm ∧ 0 < masterBpm then setRate d (masterBpm / d.bpm) else d

/-- `Deck.toggleSync` (source lines 344-351). -/
def toggleSync (masterBpm : ℚ) (d : DeckState) : DeckState :=
  let d1 := { d with isSynced := !d.isSynced }
  if d1.isSynced then syncToMaster masterBpm d1 else setRate d1 1

end Deck

namespace AudioEngine

/-- `AudioEngine.setMasterBpm` (source lines 46-51): store the new tempo, then
re-sync each deck whose `isSynced` flag is set (each `syncToMaster` call reads
the already-updated `masterBpm`). -/
def setMasterBpm (e : AudioEngineState) (bpm : ℚ) : AudioEngineState :=
  let e1 : AudioEngineState := { e with masterBpm := bpm }
  let e2 : AudioEngineState :=
    { e1 with deckA := if e1.deckA.isSynced then Deck.syncToMaster e1.masterBpm e1.deckA else e1.deckA }
  { e2 with deckB := if e2.deckB.isSynced then Deck.syncToMaster e2.masterBpm e2.deckB else e2.deckB }

end AudioEngine

namespace Deck

/-- The success path of `Deck.loadTrack` (source lines 309-331) at the
engine level: the decode and the `detectBPM` analysis of the decoded buffer
are summarised by their outcome `bpm` (the value stored into `this.bpm`);
then, if the engine's `masterBpm` is still exactly 120 and `bpm > 0`, the
deck proposes `bpm` as the new master tempo via `AudioEngine.setMasterBpm`
(which in turn re-syncs the synced decks).  `onA` selects which deck loaded.
The `loaded` event dispatch carries no state. -/
def loadTrack (e : AudioEngineState) (onA : Bool) (bpm : ℚ) : AudioEngineState :=
  let e1 : AudioEngineState :=
    if onA then { e with deckA := { e.deckA with bpm := bpm } }
    else { e with deckB := { e.deckB with bpm := bpm } }
  if e1.masterBpm = 120 ∧ 0 < bpm then AudioEngine.setMasterBpm e1 bpm else e1

end Deck

/-- The tunable effect-chain and player parameters of class `VoiceEngine`
that presets and `resetFX` touch (source lines 98-126, 213-271), plus
`currentPreset`.  Initial values are the constructor's: `PitchShift()` pitch 0,
`Distortion(0)`, `BitCrusher(16)`, `Vibrato(0, 0)` (frequency 0, depth 0),
`Reverb(decay 1.5, wet 0.2)`, `FeedbackDelay(eighth note, 0)` (feedback 0; its
wet default is immediately overwritten by the constructor's `setPreset(0)`),
`EQ3(0, 0, 0)`, player `playbackRate` 1. -/
structure FXState where
  pitch : ℚ
  distortion : ℚ
  bits : ℚ
  vibratoFreq : ℚ
  vibratoDepth : ℚ
  reverbWet : ℚ
  reverbDecay : ℚ
  delayWet : ℚ
  delayFeedback : ℚ
  eqHigh : ℚ
  eqMid : ℚ
  eqLow : ℚ
  playerRate : ℚ
  currentPreset : ℕ
deriving DecidableEq

namespace VoiceEngine

/-- `VoiceEngine.resetFX` (source lines 259-271).  Note it does NOT touch
`vibrato.frequency` or `delay.feedback`. -/
def resetFX (s : FXState) : FXState :=
  { s with
    pitch := 0
    distortion := 0
    bits := 16
    vibratoDepth := 0
    reverbWet := 1 / 5
    reverbDecay := 3 / 2
    delayWet := 0
    eqHigh := 0
    eqMid := 0
    eqLow := 0
    playerRate := 1 }

/-- `VoiceEngine.setPreset` (source lines 213-257): record the preset id,
reset, then apply the per-preset overlay (`switch (index)`). -/
def setPreset (index : ℕ) (s : FXState) : FXState :=
  let s1 := resetFX { s with currentPreset := index }
  match index with
  | 0 => { s1 with eqHigh := 6, eqLow := -5, distortion := 1 / 20 }
  | 1 => { s1 with pitch := -12, distortion := 1 / 5 }
  | 2 => { s1 with pitch := 12, playerRate := 1 }
  | 3 => { s1 with pitch := -7, distortion := 4 / 5, reverbWet := 1 / 2 }
  | 4 => { s1 with bits := 4, vibratoFreq := 50, vibratoDepth := 1 / 2 }
  | 5 => { s1 with pitch := 7, reverbDecay := 6, reverbWet := 4 / 5,
                   delayWet := 1 / 2, delayFeedback := 3 / 5 }
  | 6 => { s1 with eqHigh := -20, eqLow := -20, eqMid := 10, distortion := 2 / 5 }
  | _ => s1

/-- The constructor's raw field values (before the `setPreset(0)` call at
source line 125); `delayWet` starts at the Tone.js effect default 1, which the
constructor's `setPreset(0)` immediately rewrites. -/
def fxCtor : FXState :=
  ⟨0, 0, 16, 0, 0, 1 / 5, 3 / 2, 1, 0, 0, 0, 0, 1, 0⟩

/-- The observable initial FX state of a `VoiceEngine`: constructor fields
followed by the constructor's `setPreset(0)`. -/
def fxInit : FXState := setPreset 0 fxCtor

end VoiceEngine

/-- The record/playback flags of class `VoiceEngine` (source lines 83-85)
plus the player's `loaded` flag (the spec's `hasBuffer`).  The spec's
`mode` reads: Idle when both flags are false, Recording when `isRecording`,
Playing when `isPlaying`. -/
structure VoiceState where
  isRecording : Bool
  isPlaying : Bool
  loaded : Bool
deriving DecidableEq

namespace VoiceEngine

/-- A `VoiceEngine` before any recording or load: not recording, not playing,
player empty. -/
def initVoice : VoiceState := ⟨false, false, false⟩

/-- `VoiceEngine.startRecording` (source lines 141-148).  `micOk` is the
outcome of the awaited `startMic` attempt (`mic.state === started`); each
operation returns the new state and whether a `state-change` event fired. -/
def startRecording (micOk : Bool) (s : VoiceState) : VoiceState × Bool :=
  if micOk then ({ s with isRecording := true }, true) else (s, false)

/-- `VoiceEngine.stopRecording` (source lines 150-173).  `stopOk` is whether
`recorder.stop()` resolved, `blobNonEmpty` whether `blob.size > 0`, `loadOk`
whether the awaited `player.load` succeeded (on failure the player keeps its
previous buffer). -/
def stopRecording (stopOk blobNonEmpty loadOk : Bool) (s : VoiceState) :
    VoiceState × Bool :=
  if !s.isRecording then (s, false)
  else if stopOk then
    ({ s with isRecording := false,
              loaded := if blobNonEmpty && loadOk then true else s.loaded }, true)
  else ({ s with isRecording := false }, true)

/-- `VoiceEngine.play` (source lines 175-181): guarded only by
`player.loaded`; it does not consult `isRecording`. -/
def play (s : VoiceState) : VoiceState × Bool :=
  if s.loaded then ({ s with isPlaying := true }, true) else (s, false)

/-- `VoiceEngine.stop` (source lines 183-187). -/
def stop (s : VoiceState) : VoiceState × Bool :=
  ({ s with isPlaying := false }, true)

/-- `VoiceEngine.loadFile` (source lines 203-211): on a successful load the
player holds a buffer; on failure nothing changes and no event fires. -/
def loadFile (loadOk : Bool) (s : VoiceState) : VoiceState × Bool :=
  if loadOk then ({ s with loaded := true }, true) else (s, false)

end VoiceEngine

/-- C3 counterexample input: a buffer at sample rate 441 whose beats are
4-sample-wide transients of amplitude 0.7 every 200 samples.  The scan finds
10 peaks with gaps alternating 202 and 198 samples, all quantizing to the
bucket 200, so the pre-correction tempo is 60*441/(200*4) = 33.075 BPM. -/
def slowBuf : ℕ → ℚ := fun i => if i % 200 ≤ 3 then 7 / 10 else 0

/-- C5 counterexample input: single-sample peaks at these positions (sample
rate 400), so the gap 300 occurs five times before the gap 200 occurs five
times — a histogram tie whose insertion order is [300, 200]. -/
def tiePositions : List ℕ :=
  [0, 300, 600, 900, 1200, 1500, 1700, 1900, 2100, 2300, 2500]

/-- The buffer holding 0.7 at each position of `tiePositions`. -/
def tieBuf : ℕ → ℚ := fun i => if tiePositions.contains i then 7 / 10 else 0

/-- C6 counterexample input: every sample is a strong negative-going value of
magnitude 0.9, above the 0.6 threshold in absolute value. -/
def negBuf : ℕ → ℚ := fun _ => -(9 / 10)

/-- A single positive full-scale pulse at index 0 (for witnesses). -/
def pulseBuf : ℕ → ℚ := fun i => if i = 0 then 1 else 0

/-- An all-zero (silent) buffer. -/
def silentBuf : ℕ → ℚ := fun _ => 0

/-- C4 failing input: a 10-second mono buffer at 44.1 kHz whose beats are
4-sample-wide transients of amplitude 0.7 at every multiple of 22050 samples
(0.5 seconds apart, i.e. 120 BPM), silent elsewhere.  A width of one
decimation stride makes every beat visible to the stride-4 scan regardless of
the phase drift introduced by the `sampleRate/4` jumps. -/
def beatBuf : ℕ → ℚ := fun i => if i % 22050 ≤ 3 then 7 / 10 else 0

/-- A deck that is synced with a known tempo of 100 BPM (witness input). -/
def syncedDeckW : DeckState := ⟨false, 100, 1, true⟩

/-- An unsynced deck with a known tempo of 80 BPM (witness input). -/
def unsyncedDeckW : DeckState := ⟨false, 80, 1, false⟩

/-- An engine at the default master tempo 120 whose deck A is synced at
100 BPM (witness input). -/
def engineW : AudioEngineState := ⟨120, syncedDeckW, ⟨false, 0, 1, false⟩⟩

/-- An engine whose master tempo was already moved off the default
(witness input). -/
def engineW2 : AudioEngineState := ⟨135, ⟨false, 0, 1, false⟩, ⟨false, 0, 1, false⟩⟩

namespace Deck

/-- Scanning a stretch of below-threshold, in-range samples only advances the
position: one unit of fuel per skipped sample. -/
theorem findPeaksAux_skip (data : ℕ → ℚ) (len sr : ℕ) :
    ∀ (k fuel i : ℕ),
      (∀ m, m < k → (i + 4 * m < len ∧ ¬ 3 / 5 < data (i + 4 * m))) →
      findPeaksAux data len sr (k + fuel) i = findPeaksAux data len sr fuel (i + 4 * k)
  | 0, fuel, i, _ => by simp
  | k + 1, fuel, i, h => by
    have h0 := h 0 (Nat.succ_pos k)
    have hlt : i < len := by simpa using h0.1
    have hnp : ¬ 3 / 5 < data i := by simpa using h0.2
    have hstep : k + 1 + fuel = (k + fuel) + 1 := by omega
    rw [hstep]
    show findPeaksAux data len sr ((k + fuel) + 1) i = _
    rw [findPeaksAux, if_pos hlt, if_neg hnp]
    have ih := findPeaksAux_skip data len sr k fuel (i + 4) (fun m hm => by
      have hm1 := h (m + 1) (by omega)
      refine ⟨by have := hm1.1; omega, ?_⟩
      have h2 := hm1.2
      have he : i + 4 + 4 * m = i + 4 * (m + 1) := by ring
      rw [he]
      exact h2)
    rw [ih]
    congr 1
    omega

/-- A super-threshold in-range sample is recorded and the scan jumps by
`sr / 4` plus the stride. -/
theorem findPeaksAux_peak (data : ℕ → ℚ) (len sr fuel i : ℕ)
    (hlt : i < len) (hp : 3 / 5 < data i) :
    findPeaksAux data len sr (fuel + 1) i
      = i :: findPeaksAux data len sr fuel (i + sr / 4 + 4) := by
  rw [findPeaksAux, if_pos hlt, if_pos hp]

/-- The scan stops as soon as the position leaves the buffer. -/
theorem findPeaksAux_stop (data : ℕ → ℚ) (len sr fuel i : ℕ) (h : len ≤ i) :
    findPeaksAux data len sr fuel i = [] := by
  cases fuel with
  | zero => rfl
  | succ f => rw [findPeaksAux, if_neg (by omega)]

/-- Every recorded peak is an in-range index whose (signed) sample value
exceeds the 0.6 threshold. -/
theorem findPeaksAux_mem (data : ℕ → ℚ) (len sr : ℕ) :
    ∀ (fuel i j : ℕ), j ∈ findPeaksAux data len sr fuel i →
      j < len ∧ 3 / 5 < data j
  | 0, i, j, h => by simp [findPeaksAux] at h
  | fuel + 1, i, j, h => by
    rw [findPeaksAux] at h
    by_cases hlt : i < len
    · rw [if_pos hlt] at h
      by_cases hp : 3 / 5 < data i
      · rw [if_pos hp] at h
        rcases List.mem_cons.mp h with rfl | h2
        · exact ⟨hlt, hp⟩
        · exact findPeaksAux_mem data len sr fuel _ j h2
      · rw [if_neg hp] at h
        exact findPeaksAux_mem data len sr fuel _ j h
    · rw [if_neg hlt] at h
      simp at h

/-- On an all-zero (silent) buffer the scan records nothing. -/
theorem findPeaksAux_silence (data : ℕ → ℚ) (len sr : ℕ)
    (hz : ∀ i, i < len → data i = 0) :
    ∀ (fuel i : ℕ), findPeaksAux data len sr fuel i = []
  | 0, _ => rfl
  | fuel + 1, i => by
    rw [findPeaksAux]
    by_cases hlt : i < len
    · rw [if_pos hlt, if_neg (by rw [hz i hlt]; norm_num)]
      exact findPeaksAux_silence data len sr hz fuel _
    · rw [if_neg hlt]

/-- The running maximum of the selection loop never decreases. -/
theorem selectLoop_fst_le (g : List (ℕ × ℕ)) :
    ∀ (ks : List ℕ) (acc : ℕ × ℕ), acc.1 ≤ (selectLoop g ks acc).1
  | [], acc => le_refl _
  | k :: rest, acc => by
    rw [selectLoop]
    by_cases hc : acc.1 < countOf g k
    · rw [if_pos hc]
      exact le_trans (le_of_lt hc) (selectLoop_fst_le g rest (countOf g k, k))
    · rw [if_neg hc]
      exact selectLoop_fst_le g rest acc

/-- The final running maximum dominates the count of every visited key. -/
theorem selectLoop_max (g : List (ℕ × ℕ)) :
    ∀ (ks : List ℕ) (acc : ℕ × ℕ) (k : ℕ), k ∈ ks →
      countOf g k ≤ (selectLoop g ks acc).1
  | [], _, k, hk => absurd hk (List.not_mem_nil k)
  | a :: rest, acc, k, hk => by
    rw [selectLoop]
    by_cases hc : acc.1 < countOf g a
    · rw [if_pos hc]
      rcases List.mem_cons.mp hk with rfl | hk2
      · exact selectLoop_fst_le g rest (countOf g k, k)
      · exact selectLoop_max g rest _ k hk2
    · rw [if_neg hc]
      rcases List.mem_cons.mp hk with rfl | hk2
      · exact le_trans (le_of_not_lt hc) (selectLoop_fst_le g rest acc)
      · exact selectLoop_max g rest acc k hk2

/-- The selection loop either keeps its accumulator or returns a visited key
achieving the (strictly increased) final maximum. -/
theorem selectLoop_eq_or (g : List (ℕ × ℕ)) :
    ∀ (ks : List ℕ) (acc : ℕ × ℕ),
      selectLoop g ks acc = acc
      ∨ ((selectLoop g ks acc).2 ∈ ks
          ∧ countOf g (selectLoop g ks acc).2 = (selectLoop g ks acc).1
          ∧ acc.1 < (selectLoop g ks acc).1)
  | [], acc => Or.inl rfl
  | a :: rest, acc => by
    rw [selectLoop]
    by_cases hc : acc.1 < countOf g a
    · rw [if_pos hc]
      rcases selectLoop_eq_or g rest (countOf g a, a) with he | ⟨hm, hcnt, hlt⟩
      · right
        rw [he]
        exact ⟨List.mem_cons_self a rest, rfl, hc⟩
      · right
        exact ⟨List.mem_cons_of_mem a hm, hcnt, lt_trans hc hlt⟩
    · rw [if_neg hc]
      rcases selectLoop_eq_or g rest acc with he | ⟨hm, hcnt, hlt⟩
      · exact Or.inl he
      · exact Or.inr ⟨List.mem_cons_of_mem a hm, hcnt, hlt⟩

/-- Over a key list sorted ascending, the winner of the selection loop is the
SMALLEST key among those tied at the final maximum (provided the maximum beat
the accumulator). -/
theorem selectLoop_min_tie (g : List (ℕ × ℕ)) :
    ∀ (ks : List ℕ), List.Sorted (· ≤ ·) ks →
      ∀ (acc : ℕ × ℕ) (k : ℕ), k ∈ ks →
        countOf g k = (selectLoop g ks acc).1 →
        acc.1 < countOf g k →
        (selectLoop g ks acc).2 ≤ k
  | [], _, acc, k, hk, _, _ => absurd hk (List.not_mem_nil k)
  | a :: rest, hs, acc, k, hk, hcnt, hlt => by
    have ha := (List.sorted_cons.mp hs).1
    have hrest := (List.sorted_cons.mp hs).2
    rw [selectLoop] at hcnt ⊢
    by_cases hc : acc.1 < countOf g a
    · rw [if_pos hc] at hcnt ⊢
      rcases selectLoop_eq_or g rest (countOf g a, a) with he | ⟨_, _, hgt⟩
      · rw [he]
        rcases List.mem_cons.mp hk with rfl | hk2
        · exact le_refl k
        · exact ha k hk2
      · rcases List.mem_cons.mp hk with rfl | hk2
        · exfalso
          have hgt2 : countOf g k < (selectLoop g rest (countOf g k, k)).1 := hgt
          rw [← hcnt] at hgt2
          exact lt_irrefl _ hgt2
        · exact selectLoop_min_tie g rest hrest (countOf g a, a) k hk2 hcnt
            (by rw [hcnt]; exact hgt)
    · rw [if_neg hc] at hcnt ⊢
      rcases List.mem_cons.mp hk with rfl | hk2
      · exact absurd hlt hc
      · exact selectLoop_min_tie g rest hrest acc k hk2 hcnt hlt

/-- Histogram counts produced by `bump` stay positive. -/
theorem bump_pos (k : ℕ) : ∀ (g : List (ℕ × ℕ)), (∀ p ∈ g, 0 < p.2) →
    ∀ p ∈ bump k g, 0 < p.2 := by
  intro g
  induction g with
  | nil =>
    intro _ p hp
    rw [bump] at hp
    have h1 := List.mem_singleton.mp hp
    subst h1
    exact Nat.one_pos
  | cons q rest ih =>
    obtain ⟨a, c⟩ := q
    intro hg p hp
    rw [bump] at hp
    by_cases hak : a = k
    · rw [if_pos hak] at hp
      rcases List.mem_cons.mp hp with h1 | hp2
      · subst h1
        exact Nat.succ_pos c
      · exact hg p (List.mem_cons_of_mem _ hp2)
    · rw [if_neg hak] at hp
      rcases List.mem_cons.mp hp with h1 | hp2
      · subst h1
        exact hg (a, c) (List.mem_cons_self _ _)
      · exact ih (fun q hq => hg q (List.mem_cons_of_mem _ hq)) p hp2

/-- Every entry of the interval histogram has a positive count. -/
theorem buildGroups_pos (l : List ℕ) : ∀ p ∈ buildGroups l, 0 < p.2 := by
  have key : ∀ (l : List ℕ) (g : List (ℕ × ℕ)), (∀ p ∈ g, 0 < p.2) →
      ∀ p ∈ l.foldl (fun g interval => bump (quantize interval) g) g, 0 < p.2 := by
    intro l
    induction l with
    | nil => intro g hg p hp; exact hg p hp
    | cons x xs ih =>
      intro g hg p hp
      exact ih (bump (quantize x) g) (bump_pos (quantize x) g hg) p hp
  intro p hp
  exact key l [] (by intro q hq; exact absurd hq (List.not_mem_nil q)) p hp

/-- A key present in an all-positive histogram has a positive lookup. -/
theorem countOf_pos :
    ∀ (g : List (ℕ × ℕ)), (∀ p ∈ g, 0 < p.2) → ∀ k ∈ g.map Prod.fst,
      0 < countOf g k
  | [], _, k, hk => by simp at hk
  | (a, c) :: rest, hg, k, hk => by
    rw [countOf]
    by_cases hak : a = k
    · rw [if_pos hak]
      exact hg (a, c) (List.mem_cons_self _ _)
    · rw [if_neg hak]
      rcases List.mem_map.mp hk with ⟨p, hp, hpk⟩
      rcases List.mem_cons.mp hp with rfl | hp2
      · exact absurd hpk hak
      · exact countOf_pos rest (fun q hq => hg q (List.mem_cons_of_mem _ hq)) k
          (List.mem_map.mpr ⟨p, hp2, hpk⟩)

end Deck

/-- Half-up rounding of a rational at least 70 stays at least 70. -/
theorem round_ge_seventy {b : ℚ} (h : 70 ≤ b) : (70 : ℚ) ≤ ((round b : ℤ) : ℚ) := by
  have h1 : (70 : ℤ) ≤ round b := by
    rw [round_eq]
    refine Int.le_floor.mpr ?_
    push_cast
    linarith
  exact_mod_cast h1

/-- Half-up rounding of a rational at most 180 stays at most 180. -/
theorem round_le_oneeighty {b : ℚ} (h : b ≤ 180) : ((round b : ℤ) : ℚ) ≤ 180 := by
  have h1 : round b ≤ (180 : ℤ) := by
    rw [round_eq]
    have : (⌊b + 1 / 2⌋ : ℚ) ≤ b + 1 / 2 := Int.floor_le _
    have h2 : (⌊b + 1 / 2⌋ : ℚ) < 181 := by linarith
    exact_mod_cast Int.lt_add_one_iff.mp (by exact_mod_cast (Int.floor_lt.mpr (by push_cast; linarith)))
  exact_mod_cast h1

/-- Samples inside a `beatBuf` transient exceed the 0.6 threshold. -/
theorem beatBuf_peak (j : ℕ) (h : j % 22050 ≤ 3) : 3 / 5 < beatBuf j := by
  simp only [beatBuf]
  rw [if_pos h]
  norm_num

/-- `beatBuf` samples strictly between the transients of period `q` are below
threshold. -/
theorem beatBuf_no_peak (j q : ℕ) (h1 : 22050 * q + 3 < j) (h2 : j < 22050 * q + 22050) :
    ¬ 3 / 5 < beatBuf j := by
  simp only [beatBuf]
  rw [if_neg (by omega)]
  norm_num
/-- The peak list the scan produces on `beatBuf`: the decimation-phase drift
after each `sampleRate/4` jump makes consecutive gaps 22053, 22049, 22049,
22049 (repeating), all quantizing to buckets 22100 and 22000. -/
theorem beatBuf_findPeaks :
    Deck.findPeaks beatBuf 441000 44100 = [0, 22053, 44102, 66151, 88200, 110253, 132302, 154351, 176400, 198453, 220502, 242551, 264600, 286653, 308702, 330751, 352800, 374853, 396902, 418951] := by
  have hc4s1 : Deck.findPeaksAux beatBuf 441000 44100 441000 0
      = 0 :: Deck.findPeaksAux beatBuf 441000 44100 440999 11029 := by
    have h := Deck.findPeaksAux_peak beatBuf 441000 44100 440999 0 (by norm_num)
      (beatBuf_peak 0 (by norm_num))
    norm_num at h
    exact h
  have hc4s2 : Deck.findPeaksAux beatBuf 441000 44100 440999 11029
      = Deck.findPeaksAux beatBuf 441000 44100 438243 22053 := by
    have h := Deck.findPeaksAux_skip beatBuf 441000 44100 2756 438243 11029
      (fun m hm => ⟨by omega, beatBuf_no_peak _ 0 (by omega) (by omega)⟩)
    norm_num at h
    exact h
  have hc4s3 : Deck.findPeaksAux beatBuf 441000 44100 438243 22053
      = 22053 :: Deck.findPeaksAux beatBuf 441000 44100 438242 33082 := by
    have h := Deck.findPeaksAux_peak beatBuf 441000 44100 438242 22053 (by norm_num)
      (beatBuf_peak 22053 (by norm_num))
    norm_num at h
    exact h
  have hc4s4 : Deck.findPeaksAux beatBuf 441000 44100 438242 33082
      = Deck.findPeaksAux beatBuf 441000 44100 435487 44102 := by
    have h := Deck.findPeaksAux_skip beatBuf 441000 44100 2755 435487 33082
      (fun m hm => ⟨by omega, beatBuf_no_peak _ 1 (by omega) (by omega)⟩)
    norm_num at h
    exact h
  have hc4s5 : Deck.findPeaksAux beatBuf 441000 44100 435487 44102
      = 44102 :: Deck.findPeaksAux beatBuf 441000 44100 435486 55131 := by
    have h := Deck.findPeaksAux_peak beatBuf 441000 44100 435486 44102 (by norm_num)
      (beatBuf_peak 44102 (by norm_num))
    norm_num at h
    exact h
  have hc4s6 : Deck.findPeaksAux beatBuf 441000 44100 435486 55131
      = Deck.findPeaksAux beatBuf 441000 44100 432731 66151 := by
    have h := Deck.findPeaksAux_skip beatBuf 441000 44100 2755 432731 55131
      (fun m hm => ⟨by omega, beatBuf_no_peak _ 2 (by omega) (by omega)⟩)
    norm_num at h
    exact h
  have hc4s7 : Deck.findPeaksAux beatBuf 441000 44100 432731 66151
      = 66151 :: Deck.findPeaksAux beatBuf 441000 44100 432730 77180 := by
    have h := Deck.findPeaksAux_peak beatBuf 441000 44100 432730 66151 (by norm_num)
      (beatBuf_peak 66151 (by norm_num))
    norm_num at h
    exact h
  have hc4s8 : Deck.findPeaksAux beatBuf 441000 44100 432730 77180
      = Deck.findPeaksAux beatBuf 441000 44100 429975 88200 := by
    have h := Deck.findPeaksAux_skip beatBuf 441000 44100 2755 429975 77180
      (fun m hm => ⟨by omega, beatBuf_no_peak _ 3 (by omega) (by omega)⟩)
    norm_num at h
    exact h
  have hc4s9 : Deck.findPeaksAux beatBuf 441000 44100 429975 88200
      = 88200 :: Deck.findPeaksAux beatBuf 441000 44100 429974 99229 := by
    have h := Deck.findPeaksAux_peak beatBuf 441000 44100 429974 88200 (by norm_num)
      (beatBuf_peak 88200 (by norm_num))
    norm_num at h
    exact h
  have hc4s10 : Deck.findPeaksAux beatBuf 441000 44100 429974 99229
      = Deck.findPeaksAux beatBuf 441000 44100 427218 110253 := by
    have h := Deck.findPeaksAux_skip beatBuf 441000 44100 2756 427218 99229
      (fun m hm => ⟨by omega, beatBuf_no_peak _ 4 (by omega) (by omega)⟩)
    norm_num at h
    exact h
  have hc4s11 : Deck.findPeaksAux beatBuf 441000 44100 427218 110253
      = 110253 :: Deck.findPeaksAux beatBuf 441000 44100 427217 121282 := by
    have h := Deck.findPeaksAux_peak beatBuf 441000 44100 427217 110253 (by norm_num)
      (beatBuf_peak 110253 (by norm_num))
    norm_num at h
    exact h
  have hc4s12 : Deck.findPeaksAux beatBuf 441000 44100 427217 121282
      = Deck.findPeaksAux beatBuf 441000 44100 424462 132302 := by
    have h := Deck.findPeaksAux_skip beatBuf 441000 44100 2755 424462 121282
      (fun m hm => ⟨by omega, beatBuf_no_peak _ 5 (by omega) (by omega)⟩)
    norm_num at h
    exact h
  have hc4s13 : Deck.findPeaksAux beatBuf 441000 44100 424462 132302
      = 132302 :: Deck.findPeaksAux beatBuf 441000 44100 424461 143331 := by
    have h := Deck.findPeaksAux_peak beatBuf 441000 44100 424461 132302 (by norm_num)
      (beatBuf_peak 132302 (by norm_num))
    norm_num at h
    exact h
  have hc4s14 : Deck.findPeaksAux beatBuf 441000 44100 424461 143331
      = Deck.findPeaksAux beatBuf 441000 44100 421706 154351 := by
    have h := Deck.findPeaksAux_skip beatBuf 441000 44100 2755 421706 143331
      (fun m hm => ⟨by omega, beatBuf_no_peak _ 6 (by omega) (by omega)⟩)
    norm_num at h
    exact h
  have hc4s15 : Deck.findPeaksAux beatBuf 441000 44100 421706 154351
      = 154351 :: Deck.findPeaksAux beatBuf 441000 44100 421705 165380 := by
    have h := Deck.findPeaksAux_peak beatBuf 441000 44100 421705 154351 (by norm_num)
      (beatBuf_peak 154351 (by norm_num))
    norm_num at h
    exact h
  have hc4s16 : Deck.findPeaksAux beatBuf 441000 44100 421705 165380
      = Deck.findPeaksAux beatBuf 441000 44100 418950 176400 := by
    have h := Deck.findPeaksAux_skip beatBuf 441000 44100 2755 418950 165380
      (fun m hm => ⟨by omega, beatBuf_no_peak _ 7 (by omega) (by omega)⟩)
    norm_num at h
    exact h
  have hc4s17 : Deck.findPeaksAux beatBuf 441000 44100 418950 176400
      = 176400 :: Deck.findPeaksAux beatBuf 441000 44100 418949 187429 := by
    have h := Deck.findPeaksAux_peak beatBuf 441000 44100 418949 176400 (by norm_num)
      (beatBuf_peak 176400 (by norm_num))
    norm_num at h
    exact h
  have hc4s18 : Deck.findPeaksAux beatBuf 441000 44100 418949 187429
      = Deck.findPeaksAux beatBuf 441000 44100 416193 198453 := by
    have h := Deck.findPeaksAux_skip beatBuf 441000 44100 2756 416193 187429
      (fun m hm => ⟨by omega, beatBuf_no_peak _ 8 (by omega) (by omega)⟩)
    norm_num at h
    exact h
  have hc4s19 : Deck.findPeaksAux beatBuf 441000 44100 416193 198453
      = 198453 :: Deck.findPeaksAux beatBuf 441000 44100 416192 209482 := by
    have h := Deck.findPeaksAux_peak beatBuf 441000 44100 416192 198453 (by norm_num)
      (beatBuf_peak 198453 (by norm_num))
    norm_num at h
    exact h
  have hc4s20 : Deck.findPeaksAux beatBuf 441000 44100 416192 209482
      = Deck.findPeaksAux beatBuf 441000 44100 413437 220502 := by
    have h := Deck.findPeaksAux_skip beatBuf 441000 44100 2755 413437 209482
      (fun m hm => ⟨by omega, beatBuf_no_peak _ 9 (by omega) (by omega)⟩)
    norm_num at h
    exact h
  have hc4s21 : Deck.findPeaksAux beatBuf 441000 44100 413437 220502
      = 220502 :: Deck.findPeaksAux beatBuf 441000 44100 413436 231531 := by
    have h := Deck.findPeaksAux_peak beatBuf 441000 44100 413436 220502 (by norm_num)
      (beatBuf_peak 220502 (by norm_num))
    norm_num at h
    exact h
  have hc4s22 : Deck.findPeaksAux beatBuf 441000 44100 413436 231531
      = Deck.findPeaksAux beatBuf 441000 44100 410681 242551 := by
    have h := Deck.findPeaksAux_skip beatBuf 441000 44100 2755 410681 231531
      (fun m hm => ⟨by omega, beatBuf_no_peak _ 10 (by omega) (by omega)⟩)
    norm_num at h
    exact h
  have hc4s23 : Deck.findPeaksAux beatBuf 441000 44100 410681 242551
      = 242551 :: Deck.findPeaksAux beatBuf 441000 44100 410680 253580 := by
    have h := Deck.findPeaksAux_peak beatBuf 441000 44100 410680 242551 (by norm_num)
      (beatBuf_peak 242551 (by norm_num))
    norm_num at h
    exact h
  have hc4s24 : Deck.findPeaksAux beatBuf 441000 44100 410680 253580
      = Deck.findPeaksAux beatBuf 441000 44100 407925 264600 := by
    have h := Deck.findPeaksAux_skip beatBuf 441000 44100 2755 407925 253580
      (fun m hm => ⟨by omega, beatBuf_no_peak _ 11 (by omega) (by omega)⟩)
    norm_num at h
    exact h
  have hc4s25 : Deck.findPeaksAux beatBuf 441000 44100 407925 264600
      = 264600 :: Deck.findPeaksAux beatBuf 441000 44100 407924 275629 := by
    have h := Deck.findPeaksAux_peak beatBuf 441000 44100 407924 264600 (by norm_num)
      (beatBuf_peak 264600 (by norm_num))
    norm_num at h
    exact h
  have hc4s26 : Deck.findPeaksAux beatBuf 441000 44100 407924 275629
      = Deck.findPeaksAux beatBuf 441000 44100 405168 286653 := by
    have h := Deck.findPeaksAux_skip beatBuf 441000 44100 2756 405168 275629
      (fun m hm => ⟨by omega, beatBuf_no_peak _ 12 (by omega) (by omega)⟩)
    norm_num at h
    exact h
  have hc4s27 : Deck.findPeaksAux beatBuf 441000 44100 405168 286653
      = 286653 :: Deck.findPeaksAux beatBuf 441000 44100 405167 297682 := by
    have h := Deck.findPeaksAux_peak beatBuf 441000 44100 405167 286653 (by norm_num)
      (beatBuf_peak 286653 (by norm_num))
    norm_num at h
    exact h
  have hc4s28 : Deck.findPeaksAux beatBuf 441000 44100 405167 297682
      = Deck.findPeaksAux beatBuf 441000 44100 402412 308702 := by
    have h := Deck.findPeaksAux_skip beatBuf 441000 44100 2755 402412 297682
      (fun m hm => ⟨by omega, beatBuf_no_peak _ 13 (by omega) (by omega)⟩)
    norm_num at h
    exact h
  have hc4s29 : Deck.findPeaksAux beatBuf 441000 44100 402412 308702
      = 308702 :: Deck.findPeaksAux beatBuf 441000 44100 402411 319731 := by
    have h := Deck.findPeaksAux_peak beatBuf 441000 44100 402411 308702 (by norm_num)
      (beatBuf_peak 308702 (by norm_num))
    norm_num at h
    exact h
  have hc4s30 : Deck.findPeaksAux beatBuf 441000 44100 402411 319731
      = Deck.findPeaksAux beatBuf 441000 44100 399656 330751 := by
    have h := Deck.findPeaksAux_skip beatBuf 441000 44100 2755 399656 319731
      (fun m hm => ⟨by omega, beatBuf_no_peak _ 14 (by omega) (by omega)⟩)
    norm_num at h
    exact h
  have hc4s31 : Deck.findPeaksAux beatBuf 441000 44100 399656 330751
      = 330751 :: Deck.findPeaksAux beatBuf 441000 44100 399655 341780 := by
    have h := Deck.findPeaksAux_peak beatBuf 441000 44100 399655 330751 (by norm_num)
      (beatBuf_peak 330751 (by norm_num))
    norm_num at h
    exact h
  have hc4s32 : Deck.findPeaksAux beatBuf 441000 44100 399655 341780
      = Deck.findPeaksAux beatBuf 441000 44100 396900 352800 := by
    have h := Deck.findPeaksAux_skip beatBuf 441000 44100 2755 396900 341780
      (fun m hm => ⟨by omega, beatBuf_no_peak _ 15 (by omega) (by omega)⟩)
    norm_num at h
    exact h
  have hc4s33 : Deck.findPeaksAux beatBuf 441000 44100 396900 352800
      = 352800 :: Deck.findPeaksAux beatBuf 441000 44100 396899 363829 := by
    have h := Deck.findPeaksAux_peak beatBuf 441000 44100 396899 352800 (by norm_num)
      (beatBuf_peak 352800 (by norm_num))
    norm_num at h
    exact h
  have hc4s34 : Deck.findPeaksAux beatBuf 441000 44100 396899 363829
      = Deck.findPeaksAux beatBuf 441000 44100 394143 374853 := by
    have h := Deck.findPeaksAux_skip beatBuf 441000 44100 2756 394143 363829
      (fun m hm => ⟨by omega, beatBuf_no_peak _ 16 (by omega) (by omega)⟩)
    norm_num at h
    exact h
  have hc4s35 : Deck.findPeaksAux beatBuf 441000 44100 394143 374853
      = 374853 :: Deck.findPeaksAux beatBuf 441000 44100 394142 385882 := by
    have h := Deck.findPeaksAux_peak beatBuf 441000 44100 394142 374853 (by norm_num)
      (beatBuf_peak 374853 (by norm_num))
    norm_num at h
    exact h
  have hc4s36 : Deck.findPeaksAux beatBuf 441000 44100 394142 385882
      = Deck.findPeaksAux beatBuf 441000 44100 391387 396902 := by
    have h := Deck.findPeaksAux_skip beatBuf 441000 44100 2755 391387 385882
      (fun m hm => ⟨by omega, beatBuf_no_peak _ 17 (by omega) (by omega)⟩)
    norm_num at h
    exact h
  have hc4s37 : Deck.findPeaksAux beatBuf 441000 44100 391387 396902
      = 396902 :: Deck.findPeaksAux beatBuf 441000 44100 391386 407931 := by
    have h := Deck.findPeaksAux_peak beatBuf 441000 44100 391386 396902 (by norm_num)
      (beatBuf_peak 396902 (by norm_num))
    norm_num at h
    exact h
  have hc4s38 : Deck.findPeaksAux beatBuf 441000 44100 391386 407931
      = Deck.findPeaksAux beatBuf 441000 44100 388631 418951 := by
    have h := Deck.findPeaksAux_skip beatBuf 441000 44100 2755 388631 407931
      (fun m hm => ⟨by omega, beatBuf_no_peak _ 18 (by omega) (by omega)⟩)
    norm_num at h
    exact h
  have hc4s39 : Deck.findPeaksAux beatBuf 441000 44100 388631 418951
      = 418951 :: Deck.findPeaksAux beatBuf 441000 44100 388630 429980 := by
    have h := Deck.findPeaksAux_peak beatBuf 441000 44100 388630 418951 (by norm_num)
      (beatBuf_peak 418951 (by norm_num))
    norm_num at h
    exact h
  have hc4s40 : Deck.findPeaksAux beatBuf 441000 44100 388630 429980
      = Deck.findPeaksAux beatBuf 441000 44100 385875 441000 := by
    have h := Deck.findPeaksAux_skip beatBuf 441000 44100 2755 385875 429980
      (fun m hm => ⟨by omega, beatBuf_no_peak _ 19 (by omega) (by omega)⟩)
    norm_num at h
    exact h
  have hc4s41 : Deck.findPeaksAux beatBuf 441000 44100 385875 441000 = [] :=
    Deck.findPeaksAux_stop beatBuf 441000 44100 385875 441000 (by norm_num)
  unfold Deck.findPeaks
  rw [hc4s1, hc4s2, hc4s3, hc4s4, hc4s5, hc4s6, hc4s7, hc4s8, hc4s9, hc4s10, hc4s11, hc4s12, hc4s13, hc4s14, hc4s15, hc4s16, hc4s17, hc4s18, hc4s19, hc4s20, hc4s21, hc4s22, hc4s23, hc4s24, hc4s25, hc4s26, hc4s27, hc4s28, hc4s29, hc4s30, hc4s31, hc4s32, hc4s33, hc4s34, hc4s35, hc4s36, hc4s37, hc4s38, hc4s39, hc4s40, hc4s41]

/-- The master tempo after `setMasterBpm` is exactly the argument. -/
theorem setMasterBpm_masterBpm (e : AudioEngineState) (b : ℚ) :
    (AudioEngine.setMasterBpm e b).masterBpm = b := rfl

/-- `loadTrack` changes the master tempo to the detected `bpm` exactly when
the master was at the literal default 120 and the detection is positive. -/
theorem loadTrack_masterBpm (e : AudioEngineState) (onA : Bool) (b : ℚ) :
    (Deck.loadTrack e onA b).masterBpm
      = if e.masterBpm = 120 ∧ 0 < b then b else e.masterBpm := by
  cases onA <;>
    · simp only [Deck.loadTrack, Bool.false_eq_true, if_false, if_true]
      split_ifs with h1
      · exact setMasterBpm_masterBpm _ _
      · rfl

/-- C1: for a deck with `isSynced = true` and `bpm > 0`, any `setMasterBpm(b)`
with `b > 0` re-establishes `playbackRate = masterBpm / bpm` on that deck
(both decks are broadcast to), and a `toggleSync()` that turns sync on while
the master tempo is positive establishes the same equality. -/
theorem claim1_synced_rate (e : AudioEngineState) (b : ℚ) (d : DeckState) (m : ℚ) :
    (0 < b → e.deckA.isSynced = true → 0 < e.deckA.bpm →
      (AudioEngine.setMasterBpm e b).deckA.playbackRate
        = (AudioEngine.setMasterBpm e b).masterBpm
            / (AudioEngine.setMasterBpm e b).deckA.bpm)
    ∧ (0 < b → e.deckB.isSynced = true → 0 < e.deckB.bpm →
      (AudioEngine.setMasterBpm e b).deckB.playbackRate
        = (AudioEngine.setMasterBpm e b).masterBpm
            / (AudioEngine.setMasterBpm e b).deckB.bpm)
    ∧ (d.isSynced = false → 0 < m → 0 < d.bpm →
      (Deck.toggleSync m d).isSynced = true
        ∧ (Deck.toggleSync m d).playbackRate = m / d.bpm) := by
  refine ⟨?_, ?_, ?_⟩
  · intro hb hs hbpm
    simp [AudioEngine.setMasterBpm, Deck.syncToMaster, Deck.setRate, hs, hbpm, hb]
  · intro hb hs hbpm
    simp [AudioEngine.setMasterBpm, Deck.syncToMaster, Deck.setRate, hs, hbpm, hb]
  · intro hs hm hbpm
    simp [Deck.toggleSync, Deck.syncToMaster, Deck.setRate, hs, hm, hbpm]

/-- C1 witness: a synced deck at 100 BPM after `setMasterBpm(130)`, and an
unsynced 80 BPM deck toggling sync on under a master tempo of 120. -/
theorem claim1_synced_rate_witness :
    ((AudioEngine.setMasterBpm engineW 130).deckA.playbackRate
      = (AudioEngine.setMasterBpm engineW 130).masterBpm
          / (AudioEngine.setMasterBpm engineW 130).deckA.bpm)
    ∧ (Deck.toggleSync 120 unsyncedDeckW).isSynced = true
    ∧ (Deck.toggleSync 120 unsyncedDeckW).playbackRate = 120 / unsyncedDeckW.bpm :=
  ⟨(claim1_synced_rate engineW 130 unsyncedDeckW 120).1 (by decide) rfl (by decide),
   ((claim1_synced_rate engineW 130 unsyncedDeckW 120).2.2 rfl (by decide) (by decide)).1,
   ((claim1_synced_rate engineW 130 unsyncedDeckW 120).2.2 rfl (by decide) (by decide)).2⟩

/-- C10: a load that detects `bpm > 0` while the master tempo is at its
default 120 moves the master tempo to that `bpm`; a load while the master is
off the default, or one that detects 0, leaves the master unchanged; and once
a first load has adopted a tempo other than 120, no later load changes it. -/
theorem claim10_master_adoption (e : AudioEngineState) (onA : Bool) (b : ℚ)
    (onA2 : Bool) (b2 : ℚ) :
    (e.masterBpm = 120 → 0 < b → (Deck.loadTrack e onA b).masterBpm = b)
    ∧ (e.masterBpm ≠ 120 → (Deck.loadTrack e onA b).masterBpm = e.masterBpm)
    ∧ (b = 0 → (Deck.loadTrack e onA b).masterBpm = e.masterBpm)
    ∧ (e.masterBpm = 120 → 0 < b → b ≠ 120 →
        (Deck.loadTrack (Deck.loadTrack e onA b) onA2 b2).masterBpm = b) := by
  refine ⟨?_, ?_, ?_, ?_⟩
  · intro h120 hb
    rw [loadTrack_masterBpm, if_pos ⟨h120, hb⟩]
  · intro hne
    rw [loadTrack_masterBpm, if_neg (fun hc => hne hc.1)]
  · intro hb0
    subst hb0
    rw [loadTrack_masterBpm, if_neg (fun hc => lt_irrefl 0 hc.2)]
  · intro h120 hb hbne
    have h1 : (Deck.loadTrack e onA b).masterBpm = b := by
      rw [loadTrack_masterBpm, if_pos ⟨h120, hb⟩]
    rw [loadTrack_masterBpm, h1, if_neg (fun hc => hbne hc.1)]

/-- C10 witness: loading a 128 BPM track while master is the default 120
adopts 128; a later 95 BPM load leaves it at 128; a load while master is 135
changes nothing, as does a load that detects 0. -/
theorem claim10_master_adoption_witness :
    (Deck.loadTrack engineW true 128).masterBpm = 128
    ∧ (Deck.loadTrack engineW2 true 128).masterBpm = engineW2.masterBpm
    ∧ (Deck.loadTrack engineW false 0).masterBpm = engineW.masterBpm
    ∧ (Deck.loadTrack (Deck.loadTrack engineW true 128) false 95).masterBpm = 128 :=
  ⟨(claim10_master_adoption engineW true 128 false 95).1 rfl (by decide),
   (claim10_master_adoption engineW2 true 128 false 95).2.1 (by decide),
   (claim10_master_adoption engineW false 0 false 95).2.2.1 rfl,
   (claim10_master_adoption engineW true 128 false 95).2.2.2 rfl (by decide) (by decide)⟩

/-- C2: evaluating the code at the failing input: `setPreset(4)` writes
`vibrato.frequency = 50`, and the subsequent `setPreset(1)` leaves it at 50
because `resetFX` never touches `vibrato.frequency`; likewise `setPreset(5)`
writes `delay.feedback = 0.6`, which survives a later `setPreset(1)`.  The
neutral values of both parameters are 0, as the initial state shows. -/
theorem claim2_reset_gap :
    (VoiceEngine.setPreset 1 (VoiceEngine.setPreset 4 VoiceEngine.fxInit)).vibratoFreq = 50
    ∧ VoiceEngine.fxInit.vibratoFreq = 0
    ∧ (VoiceEngine.setPreset 1 (VoiceEngine.setPreset 5 VoiceEngine.fxInit)).delayFeedback = 3 / 5
    ∧ VoiceEngine.fxInit.delayFeedback = 0 := by
  refine ⟨rfl, rfl, ?_, rfl⟩
  with_unfolding_all decide

/-- C7 counterexample: after a successful `loadFile`, a successful
`startRecording`, and then `play()`, the engine is simultaneously Recording
and Playing — `play()` checks only `player.loaded`, so Recording and Playing
are not mutually exclusive and the Recording-to-Playing move does not pass
through Idle. -/
theorem claim7_mutex_cex :
    ((VoiceEngine.play
        (VoiceEngine.startRecording true
          (VoiceEngine.loadFile true VoiceEngine.initVoice).1).1).1.isRecording = true)
    ∧ ((VoiceEngine.play
        (VoiceEngine.startRecording true
          (VoiceEngine.loadFile true VoiceEngine.initVoice).1).1).1.isPlaying = true) := by
  decide

/-- C7 amended: `play()` is guarded only by the loaded buffer: it never reads
or changes `isRecording`, and it sets `isPlaying` exactly when a buffer is
loaded (otherwise leaving it as it was) — so Recording and Playing can hold
simultaneously. -/
theorem claim7_play_ignores_recording (s : VoiceState) :
    (VoiceEngine.play s).1.isRecording = s.isRecording
    ∧ (VoiceEngine.play s).1.isPlaying = (s.loaded || s.isPlaying) := by
  obtain ⟨r, p, l⟩ := s
  cases l <;> simp [VoiceEngine.play]

/-- C8: `stopRecording()` while not recording returns the state unchanged and
fires no `state-change` event, and `play()` with no loaded buffer returns the
state unchanged (in particular `isPlaying` stays put, so an Idle engine stays
Idle) and fires no event. -/
theorem claim8_noop_guards (s : VoiceState) (stopOk blobNonEmpty loadOk : Bool) :
    (s.isRecording = false →
      VoiceEngine.stopRecording stopOk blobNonEmpty loadOk s = (s, false))
    ∧ (s.loaded = false → VoiceEngine.play s = (s, false)) := by
  constructor
  · intro h
    simp [VoiceEngine.stopRecording, h]
  · intro h
    simp [VoiceEngine.play, h]

/-- C8 witness: both no-op guards evaluated on the initial voice state. -/
theorem claim8_noop_guards_witness :
    VoiceEngine.stopRecording true true true VoiceEngine.initVoice
      = (VoiceEngine.initVoice, false)
    ∧ VoiceEngine.play VoiceEngine.initVoice = (VoiceEngine.initVoice, false) :=
  ⟨(claim8_noop_guards VoiceEngine.initVoice true true true).1 rfl,
   (claim8_noop_guards VoiceEngine.initVoice true true true).2 rfl⟩

set_option maxRecDepth 400000 in
/-- C3 counterexample: on `slowBuf` (ten detected peaks, winning bucket 200,
pre-correction tempo 33.075) the estimator returns 1323/20 = 66.15 — a
nonzero value below 70 with denominator 20, hence neither inside [70, 180]
nor rounded to an integer: the `bpm < 70` branch returns `bpm * 2` directly. -/
theorem claim3_octave_cex :
    Deck.detectBPM slowBuf 1804 441 = 1323 / 20
    ∧ (1323 / 20 : ℚ) < 70
    ∧ (1323 / 20 : ℚ).den ≠ 1 := by
  refine ⟨?_, ?_, ?_⟩ <;> with_unfolding_all decide

/-- C3 amended: only the in-range branch rounds: when the pre-correction
tempo lies in [70, 180] the estimator returns its half-up rounding, which
stays in [70, 180]; when it is below 70 the estimator returns exactly twice
it, and when above 180 exactly half of it, in both cases unrounded and
without re-checking the range. -/
theorem claim3_octave_correction (data : ℕ → ℚ) (len sr : ℕ) :
    (Deck.rawBpm data len sr < 70 →
      Deck.detectBPM data len sr = Deck.rawBpm data len sr * 2)
    ∧ (180 < Deck.rawBpm data len sr →
      Deck.detectBPM data len sr = Deck.rawBpm data len sr / 2)
    ∧ (70 ≤ Deck.rawBpm data len sr → Deck.rawBpm data len sr ≤ 180 →
      Deck.detectBPM data len sr = ((round (Deck.rawBpm data len sr) : ℤ) : ℚ)
      ∧ 70 ≤ Deck.detectBPM data len sr ∧ Deck.detectBPM data len sr ≤ 180) := by
  by_cases hlen : (Deck.findPeaks data len sr).length < 10
  · have hr : Deck.rawBpm data len sr = 0 := by
      simp only [Deck.rawBpm]
      rw [if_pos hlen]
    have hd : Deck.detectBPM data len sr = 0 := by
      simp only [Deck.detectBPM]
      rw [if_pos hlen]
    rw [hr, hd]
    refine ⟨fun _ => by norm_num, fun h => absurd h (by norm_num),
      fun h _ => absurd h (by norm_num)⟩
  · by_cases hbest :
      Deck.bestInterval (Deck.buildGroups (Deck.intervalsOf (Deck.findPeaks data len sr))) = 0
    · have hr : Deck.rawBpm data len sr = 0 := by
        simp only [Deck.rawBpm]
        rw [if_neg hlen, if_pos hbest]
      have hd : Deck.detectBPM data len sr = 0 := by
        simp only [Deck.detectBPM]
        rw [if_neg hlen, if_pos hbest]
      rw [hr, hd]
      refine ⟨fun _ => by norm_num, fun h => absurd h (by norm_num),
        fun h _ => absurd h (by norm_num)⟩
    · have hr : Deck.rawBpm data len sr
          = 60 * sr / (Deck.bestInterval
              (Deck.buildGroups (Deck.intervalsOf (Deck.findPeaks data len sr))) * 4) := by
        simp only [Deck.rawBpm]
        rw [if_neg hlen, if_neg hbest]
      have hd : Deck.detectBPM data len sr
          = if Deck.rawBpm data len sr < 70 then Deck.rawBpm data len sr * 2
            else if 180 < Deck.rawBpm data len sr then Deck.rawBpm data len sr / 2
            else ((round (Deck.rawBpm data len sr) : ℤ) : ℚ) := by
        simp only [Deck.detectBPM]
        rw [if_neg hlen, if_neg hbest, ← hr]
      refine ⟨fun h => ?_, fun h => ?_, fun h1 h2 => ?_⟩
      · rw [hd, if_pos h]
      · rw [hd, if_neg (by linarith), if_pos h]
      · have heq : Deck.detectBPM data len sr
            = ((round (Deck.rawBpm data len sr) : ℤ) : ℚ) := by
          rw [hd, if_neg (not_lt.mpr h1), if_neg (not_lt.mpr h2)]
        exact ⟨heq, heq ▸ round_ge_seventy h1, heq ▸ round_le_oneeighty h2⟩

set_option maxRecDepth 400000 in
/-- C3 witness: on `slowBuf` the pre-correction tempo is below 70 and the
amended low branch applies. -/
theorem claim3_octave_correction_witness :
    Deck.rawBpm slowBuf 1804 441 < 70
    ∧ Deck.detectBPM slowBuf 1804 441 = Deck.rawBpm slowBuf 1804 441 * 2 :=
  ⟨by with_unfolding_all decide,
   (claim3_octave_correction slowBuf 1804 441).1 (by with_unfolding_all decide)⟩

set_option maxRecDepth 400000 in
/-- C5 counterexample: on `tieBuf` the quantized gaps 300 and 200 tie at five
occurrences each, with 300 first in insertion order; the source's `for...in`
visits the numeric keys ascending and returns 60 (bucket 200), while the
claim's insertion-order rule would return 40 (bucket 300). -/
theorem claim5_insertion_cex :
    Deck.detectBPM tieBuf 2501 400 = 60
    ∧ Deck.detectBPMInsertion tieBuf 2501 400 = 40
    ∧ Deck.detectBPM tieBuf 2501 400 ≠ Deck.detectBPMInsertion tieBuf 2501 400 := by
  refine ⟨?_, ?_, ?_⟩ <;> with_unfolding_all decide

/-- C5 amended: the selected bucket always carries a maximal count, and when
several buckets tie for the highest count the selected one is the bucket with
the SMALLEST quantized interval (ascending numeric key order of the JS
object) — still a deterministic function of the input. -/
theorem claim5_tiebreak_smallest (l : List ℕ) (hg : Deck.buildGroups l ≠ []) :
    Deck.bestInterval (Deck.buildGroups l) ∈ (Deck.buildGroups l).map Prod.fst
    ∧ (∀ k ∈ (Deck.buildGroups l).map Prod.fst,
        Deck.countOf (Deck.buildGroups l) k
          ≤ Deck.countOf (Deck.buildGroups l) (Deck.bestInterval (Deck.buildGroups l)))
    ∧ (∀ k ∈ (Deck.buildGroups l).map Prod.fst,
        Deck.countOf (Deck.buildGroups l) k
            = Deck.countOf (Deck.buildGroups l) (Deck.bestInterval (Deck.buildGroups l)) →
        Deck.bestInterval (Deck.buildGroups l) ≤ k) := by
  have hpos := Deck.buildGroups_pos l
  have hperm := List.perm_insertionSort (fun a b : ℕ => a ≤ b)
    ((Deck.buildGroups l).map Prod.fst)
  have hsorted : List.Sorted (fun a b : ℕ => a ≤ b)
      (Deck.forInKeys (Deck.buildGroups l)) :=
    List.sorted_insertionSort (fun a b : ℕ => a ≤ b) ((Deck.buildGroups l).map Prod.fst)
  have hne : (Deck.buildGroups l).map Prod.fst ≠ [] := by
    intro hmap
    exact hg (List.map_eq_nil_iff.mp hmap)
  obtain ⟨k0, hk0⟩ := List.exists_mem_of_ne_nil _ hne
  have hk0s : k0 ∈ Deck.forInKeys (Deck.buildGroups l) := by
    rw [Deck.forInKeys]
    exact hperm.mem_iff.mpr hk0
  have hmax : ∀ k ∈ Deck.forInKeys (Deck.buildGroups l),
      Deck.countOf (Deck.buildGroups l) k
        ≤ (Deck.selectLoop (Deck.buildGroups l)
            (Deck.forInKeys (Deck.buildGroups l)) (0, 0)).1 :=
    fun k hk => Deck.selectLoop_max (Deck.buildGroups l) _ _ k hk
  have hk0pos : 0 < Deck.countOf (Deck.buildGroups l) k0 :=
    Deck.countOf_pos (Deck.buildGroups l) hpos k0 hk0
  have hres1 : 0 < (Deck.selectLoop (Deck.buildGroups l)
      (Deck.forInKeys (Deck.buildGroups l)) (0, 0)).1 :=
    lt_of_lt_of_le hk0pos (hmax k0 hk0s)
  rcases Deck.selectLoop_eq_or (Deck.buildGroups l)
      (Deck.forInKeys (Deck.buildGroups l)) (0, 0) with he | ⟨hm, hcnt, _⟩
  · rw [he] at hres1
    exact absurd hres1 (lt_irrefl 0)
  · unfold Deck.bestInterval
    refine ⟨?_, ?_, ?_⟩
    · rw [Deck.forInKeys] at hm
      exact hperm.mem_iff.mp hm
    · intro k hk
      rw [hcnt]
      exact hmax k (by rw [Deck.forInKeys]; exact hperm.mem_iff.mpr hk)
    · intro k hk htie
      refine Deck.selectLoop_min_tie (Deck.buildGroups l)
        (Deck.forInKeys (Deck.buildGroups l)) hsorted (0, 0) k
        (by rw [Deck.forInKeys]; exact hperm.mem_iff.mpr hk) ?_ ?_
      · rw [htie, hcnt]
      · rw [htie, hcnt]
        exact hres1

/-- C5 witness: the single-bucket histogram built from one interval of 123
samples (bucket 100, count 1). -/
theorem claim5_tiebreak_smallest_witness :
    Deck.buildGroups [123] ≠ []
    ∧ (Deck.bestInterval (Deck.buildGroups [123]) ∈ (Deck.buildGroups [123]).map Prod.fst
       ∧ (∀ k ∈ (Deck.buildGroups [123]).map Prod.fst,
           Deck.countOf (Deck.buildGroups [123]) k
             ≤ Deck.countOf (Deck.buildGroups [123])
                 (Deck.bestInterval (Deck.buildGroups [123])))
       ∧ (∀ k ∈ (Deck.buildGroups [123]).map Prod.fst,
           Deck.countOf (Deck.buildGroups [123]) k
               = Deck.countOf (Deck.buildGroups [123])
                   (Deck.bestInterval (Deck.buildGroups [123])) →
           Deck.bestInterval (Deck.buildGroups [123]) ≤ k)) :=
  ⟨by with_unfolding_all decide,
   claim5_tiebreak_smallest [123] (by with_unfolding_all decide)⟩

set_option maxRecDepth 400000 in
/-- C6 counterexample: a buffer whose every sample is the strong
negative-going value -0.9 (absolute amplitude 0.9 > 0.6) yields NO peaks and
estimate 0: the scan compares the signed sample against the threshold, so
negative transients are never recorded. -/
theorem claim6_negative_cex :
    Deck.findPeaks negBuf 2000 400 = []
    ∧ Deck.detectBPM negBuf 2000 400 = 0
    ∧ 3 / 5 < |negBuf 0| := by
  refine ⟨?_, ?_, ?_⟩ <;> with_unfolding_all decide

/-- C6 amended: a sample index is recorded as a peak only when it is in range
and its SIGNED value exceeds 0.6 (no absolute value is taken, so
negative-going transients are not recorded). -/
theorem claim6_peak_condition (data : ℕ → ℚ) (len sr j : ℕ)
    (h : j ∈ Deck.findPeaks data len sr) :
    j < len ∧ 3 / 5 < data j :=
  Deck.findPeaksAux_mem data len sr len 0 j h

/-- C6 witness: the pulse buffer's recorded peak at index 0 satisfies the
characterization. -/
theorem claim6_peak_condition_witness :
    (0 ∈ Deck.findPeaks pulseBuf 5 0) ∧ (0 < 5 ∧ 3 / 5 < pulseBuf 0) :=
  ⟨by with_unfolding_all decide,
   claim6_peak_condition pulseBuf 5 0 0 (by with_unfolding_all decide)⟩

/-- C9: `detectBPM` is a total function of its input (the embedding returns a
value on every buffer), and each degenerate input — fewer than 10 detected
peaks, a zero-length buffer, or silence — yields exactly 0. -/
theorem claim9_degenerate_zero (data : ℕ → ℚ) (len sr : ℕ) :
    ((Deck.findPeaks data len sr).length < 10 → Deck.detectBPM data len sr = 0)
    ∧ (len = 0 → Deck.detectBPM data len sr = 0)
    ∧ ((∀ i, i < len → data i = 0) → Deck.detectBPM data len sr = 0) := by
  refine ⟨?_, ?_, ?_⟩
  · intro h
    simp only [Deck.detectBPM]
    rw [if_pos h]
  · intro h
    subst h
    have hp : Deck.findPeaks data 0 sr = [] := rfl
    simp only [Deck.detectBPM, hp]
    rw [if_pos (by norm_num)]
  · intro hz
    have hp : Deck.findPeaks data len sr = [] :=
      Deck.findPeaksAux_silence data len sr hz len 0
    simp only [Deck.detectBPM, hp]
    rw [if_pos (by norm_num)]

/-- C9 witness: a short silent buffer estimates to 0. -/
theorem claim9_degenerate_zero_witness :
    Deck.detectBPM silentBuf 5 44100 = 0 :=
  (claim9_degenerate_zero silentBuf 5 44100).2.2 (fun _ _ => rfl)

set_option maxRecDepth 400000 in
/-- C4: evaluating the code on the claim's scenario: a 10-second 44.1 kHz
buffer with beats every 0.5 seconds (120 BPM) estimates to 1323/22 (about
60.14), not 120: the recorded peak indices are original-buffer positions
(the scan steps 4 at a time but pushes `i` itself), yet the conversion
`60 * sampleRate / (interval * step)` multiplies the interval by the stride
again, quartering the tempo to about 30, which the `< 70` branch then
doubles. -/
theorem claim4_beat_scenario :
    Deck.detectBPM beatBuf 441000 44100 = 1323 / 22 ∧ (1323 / 22 : ℚ) ≠ 120 := by
  constructor
  · unfold Deck.detectBPM
    rw [beatBuf_findPeaks]
    with_unfolding_all decide
  · with_unfolding_all decide
